import Mathlib

/-!
Shallow embedding of the core logic of the Nervos CKB node dashboard
(App.tsx, batched-RPC variant): the epoch-position decoder, the halving
target projection, the countdown formatter, the RPC polling snapshot
builder (`updateData`) and the bounded transaction-history buffer
(`updateTxHistoryData`).

Modelling conventions:
- JavaScript `number`/`BigInt` values are modelled as `Nat`/`Int`.
- `Math.floor` over real-valued expressions is modelled as `Int.floor`
  over `ℚ` (exact on the concrete inputs treated here); `Math.floor` of
  a quotient of integers with a positive divisor is `Int.fdiv`.
- A non-finite JS float (`NaN`/`Infinity`, which arises exactly when the
  ` epochIndex / epochLength` division has a zero divisor) is modelled as
  `none` in an `Option ℤ`-valued duration/timestamp.
- `fetch`/`await` failures and destructuring of a missing JSON field both
  throw in JS and are caught by the single try/catch of `updateData`;
  they are modelled as `Except PollError`, and the environment (`RpcEnv`)
  supplies each network response as an `Except` value.
- React state (`setCurrentData`, `setTxHistory`) is modelled by returning
  the new value of the state cell; a code path that does not call the
  setter returns the prior value unchanged.
-/

namespace Dashboard

/-! ## Constants (App.tsx) -/

def EPOCHS_PER_HALVING : ℕ := 8760

def HOURS_PER_EPOCH : ℕ := 4

def HALVING_MESSAGE_HIDE_DELAY : ℤ := 10 * 60 * 1000

def MAX_TX_HISTORY_COUNT : ℕ := 100

/-! ## Data model -/

/-- History values for a specific block (type `HistoryState`). -/
structure HistoryState where
  blockNumber : ℕ
  cyclesConsumed : ℕ
  txCount : ℕ
deriving Repr, DecidableEq

/-- Container for all the current data retrieved from the RPC (type
`CurrentData`).  `connections` is an `Int` because `-1` is the sentinel
used in public mode; `targetTime` is `Option ℤ` with `none` standing for
a non-finite JS float. -/
structure CurrentData where
  block : ℕ
  chainType : String
  connections : ℤ
  epoch : ℕ
  epochIndex : ℕ
  epochLength : ℕ
  historyState : HistoryState
  minFeeRate : ℕ
  nodeVersion : String
  orphan : ℕ
  pending : ℕ
  proposed : ℕ
  targetEpoch : ℕ
  targetTime : Option ℤ
  totalTxCycles : ℕ
  txSize : ℕ
deriving Repr, DecidableEq

/-- The default values for a `CurrentData` object (`currentDataDefault`). -/
def currentDataDefault : CurrentData :=
  { block := 0
    chainType := ""
    connections := 0
    epoch := 0
    epochIndex := 0
    epochLength := 0
    historyState := ⟨0, 0, 0⟩
    minFeeRate := 0
    nodeVersion := ""
    orphan := 0
    pending := 0
    proposed := 0
    targetEpoch := 0
    targetTime := some 0
    totalTxCycles := 0
    txSize := 0 }

/-- An object which holds the application settings (type `SettingsObject`). -/
structure SettingsObject where
  ckbRpcUrl : String
  ckbRpcPublic : Bool
deriving Repr, DecidableEq

/-- A time value separated into components for a future date (type
`TimeValue`). -/
structure TimeValue where
  months : ℤ
  days : ℤ
  hours : ℤ
  minutes : ℤ
  seconds : ℤ
deriving Repr, DecidableEq

/-! ## Countdown formatting (`calculateTimeValue`, `generateCountdown`) -/

/-- Generates time values in months, days, hours, minutes, and seconds
based on the time remaining in the countdown (`calculateTimeValue`).
Each `Math.floor` of a quotient by a positive constant is `Int.fdiv`. -/
def calculateTimeValue (timeFromNow : ℤ) : TimeValue :=
  let second : ℤ := 1000
  let minute : ℤ := second * 60
  let hour : ℤ := minute * 60
  let day : ℤ := hour * 24
  let month : ℤ := day * 30
  let months := Int.fdiv timeFromNow month
  let days := Int.fdiv (timeFromNow - months * month) day
  let hours := Int.fdiv (timeFromNow - (days * day + months * month)) hour
  let minutes := Int.fdiv (timeFromNow - (hours * hour + days * day + months * month)) minute
  let seconds :=
    Int.fdiv (timeFromNow - (minutes * minute + hours * hour + days * day + months * month)) second
  ⟨months, days, hours, minutes, seconds⟩

/-- The fixed celebratory string displayed right after a halving. -/
def halvingMessage : String := "🎉🎈Happy Halving!🎈🎉"

/-- The countdown display string built from a `TimeValue` breakdown. -/
def countdownText (t : TimeValue) : String :=
  toString t.months ++ "m, " ++ toString t.days ++ "d, " ++ toString t.hours ++ "h, "
    ++ toString t.minutes ++ "m, " ++ toString t.seconds ++ "s"

/-- The near-full-cycle threshold computed inside `generateCountdown`:
`EPOCHS_PER_HALVING * HOURS_PER_EPOCH * 60 * 60 * 1000 - HALVING_MESSAGE_HIDE_DELAY`. -/
def halvingMessageWindow : ℤ :=
  (EPOCHS_PER_HALVING : ℤ) * (HOURS_PER_EPOCH : ℤ) * 60 * 60 * 1000 - HALVING_MESSAGE_HIDE_DELAY

/-- Generate the countdown string or a halving message immediately after
the halving (`generateCountdown`).  `Date.now()` is passed explicitly as
`now`; the JS truthiness test `if(targetTime)` is `targetTime ≠ 0`. -/
def generateCountdown (targetTime : ℤ) (now : ℤ) : String :=
  if targetTime ≠ 0 then
    let timeRemaining := targetTime - now
    if timeRemaining > 0 ∧ timeRemaining < halvingMessageWindow then
      countdownText (calculateTimeValue timeRemaining)
    else
      halvingMessage
  else
    ""

/-! ## Epoch decoding and halving target (`updateData`, decode section) -/

/-- Decode of the packed epoch field, length component:
`Number((epochNumberWithFraction & 72056494526300160n) >> 40n)`. -/
def epochLengthOf (epochNumberWithFraction : ℕ) : ℕ :=
  (epochNumberWithFraction &&& 72056494526300160) >>> 40

/-- Decode of the packed epoch field, index component:
`Number((epochNumberWithFraction & 1099494850560n) >> 24n)`. -/
def epochIndexOf (epochNumberWithFraction : ℕ) : ℕ :=
  (epochNumberWithFraction &&& 1099494850560) >>> 24

/-- Decode of the packed epoch field, epoch-number component:
`Number(epochNumberWithFraction & 16777215n)`. -/
def epochNumberOf (epochNumberWithFraction : ℕ) : ℕ :=
  epochNumberWithFraction &&& 16777215

/-- The target epoch:
`Math.floor(epochNumber / EPOCHS_PER_HALVING) * EPOCHS_PER_HALVING + EPOCHS_PER_HALVING`. -/
def targetEpochOf (epochNumber : ℕ) : ℕ :=
  epochNumber / EPOCHS_PER_HALVING * EPOCHS_PER_HALVING + EPOCHS_PER_HALVING

/-- The duration until the target epoch in milliseconds:
`Math.floor((targetEpoch - (epochNumber + (epochIndex / epochLength))) * HOURS_PER_EPOCH * 60*60*1000)`.
When `epochLength = 0` the JS division produces a non-finite float
(`NaN` or `Infinity`) which propagates through the arithmetic; this is
modelled as `none`.  For a positive `epochLength` the computation is the
exact real-valued one over `ℚ`. -/
def targetDurationOf (epochNumber epochIndex epochLength : ℕ) : Option ℤ :=
  if epochLength = 0 then none
  else
    some ⌊((targetEpochOf epochNumber : ℚ)
        - ((epochNumber : ℚ) + (epochIndex : ℚ) / (epochLength : ℚ)))
        * (HOURS_PER_EPOCH : ℚ) * (60 * 60 * 1000)⌋

/-- `targetTime = Date.now() + targetDuration`, propagating a non-finite
duration. -/
def targetTimeOf (epochNumber epochIndex epochLength : ℕ) (now : ℤ) : Option ℤ :=
  (targetDurationOf epochNumber epochIndex epochLength).map (fun d => now + d)

/-! ## Other decode helpers of `updateData` -/

/-- `chainTypeString = (chainTypeString === "ckb") ? "Mainnet" : "Testnet"`. -/
def decodeChainType (chain : String) : String :=
  if chain = "ckb" then "Mainnet" else "Testnet"

/-- `nodeVersion = "v" + nodeVersion.split(" ")[0]`. -/
def decodeNodeVersion (version : String) : String :=
  "v" ++ (version.splitOn " ").headD ""

/-! ## RPC model and the snapshot builder (`updateData`) -/

/-- One JSON-RPC request object, reduced to the fields the claims are
about: the correlation `id` and the `method` name. -/
structure RpcRequest where
  id : ℕ
  method : String
deriving Repr, DecidableEq

/-- The batched multi-call request `jsonRpcRequest1` of `updateData`.
The source builds this array as a literal, without consulting the
settings, so it always contains all four requests. -/
def jsonRpcRequest1 : List RpcRequest :=
  [⟨1, "get_tip_header"⟩, ⟨2, "get_blockchain_info"⟩,
   ⟨3, "tx_pool_info"⟩, ⟨4, "local_node_info"⟩]

/-- The batched request array sent by a poll for given settings.  The
source's `jsonRpcRequest1` does not depend on the settings. -/
def batchRequestOf (_settings : SettingsObject) : List RpcRequest :=
  jsonRpcRequest1

/-- Decoded fields of the `get_tip_header` result. -/
structure TipHeader where
  epoch : ℕ
  number : ℕ
deriving Repr, DecidableEq

/-- Decoded fields of the `get_blockchain_info` result. -/
structure ChainInfo where
  chain : String
deriving Repr, DecidableEq

/-- Decoded fields of the `tx_pool_info` result. -/
structure TxPoolInfo where
  orphan : ℕ
  pending : ℕ
  proposed : ℕ
  total_tx_cycles : ℕ
  total_tx_size : ℕ
  tx_size_limit : ℕ
deriving Repr, DecidableEq

/-- Decoded fields of the `local_node_info` result. -/
structure NodeInfo where
  connections : ℕ
  version : String
deriving Repr, DecidableEq

/-- Decoded fields of the `get_block_by_number` result: the length of
the `transactions` array and the per-transaction `cycles` array. -/
structure BlockData where
  txCount : ℕ
  cycles : List ℕ
deriving Repr, DecidableEq

/-- The two failure kinds distinguished by the catch handler of
`updateData`: a transport failure and any other thrown error
(malformed or missing response data). -/
inductive PollError where
  | network
  | protocol
deriving Repr, DecidableEq

/-- The successfully parsed batched response: one entry per request id.
`nodeInfo` is `none` when the response carries no usable
`local_node_info` result (destructuring it would throw). -/
structure BatchResult where
  tipHeader : TipHeader
  chainInfo : ChainInfo
  txPool : TxPoolInfo
  nodeInfo : Option NodeInfo
deriving Repr, DecidableEq

/-- The network environment of one poll: the outcome of the batched
fetch, the outcome of the dependent `get_block_by_number` fetch as a
function of the block number passed to it, and the value of
`Date.now()` during the poll. -/
structure RpcEnv where
  batch : Except PollError BatchResult
  blockByNumber : ℕ → Except PollError BlockData
  now : ℤ

/-- The options bag of `updateData` (`{updateTargets: boolean}`). -/
structure UpdateOptions where
  updateTargets : Bool
deriving Repr, DecidableEq

/-- Connection count and node version of `updateData`: the sentinels
`-1` / `"n/a"` are set first and the `local_node_info` result is
destructured over them only when `ckbRpcPublic` is false (a missing
result then throws, i.e. errors). -/
def nodeFieldsOf (settings : SettingsObject) (nodeInfo : Option NodeInfo) :
    Except PollError (ℤ × String) :=
  if settings.ckbRpcPublic then
    Except.ok (-1, "n/a")
  else
    match nodeInfo with
    | some info => Except.ok ((info.connections : ℤ), decodeNodeVersion info.version)
    | none => Except.error PollError.protocol

/-- The try-block of `updateData`: every awaited fetch and every
destructuring step propagates its error (caught by the single catch
handler); on success it assembles the new `CurrentData` record exactly
as the source does.  In public mode (`ckbRpcPublic = true`) the
`local_node_info` result is never read and the sentinels remain. -/
def runPoll (settings : SettingsObject) (currentData : CurrentData) (env : RpcEnv)
    (options : UpdateOptions) : Except PollError CurrentData :=
  match env.batch with
  | Except.error e => Except.error e
  | Except.ok batch =>
    let blockNumber := batch.tipHeader.number
    let epochLength := epochLengthOf batch.tipHeader.epoch
    let epochIndex := epochIndexOf batch.tipHeader.epoch
    let epochNumber := epochNumberOf batch.tipHeader.epoch
    let targetEpoch := targetEpochOf epochNumber
    let targetTime := targetTimeOf epochNumber epochIndex epochLength env.now
    let chainTypeString := decodeChainType batch.chainInfo.chain
    match nodeFieldsOf settings batch.nodeInfo with
    | Except.error e => Except.error e
    | Except.ok (connectionsNumber, nodeVersion) =>
      match env.blockByNumber blockNumber with
      | Except.error e => Except.error e
      | Except.ok blockData =>
        let historyState : HistoryState :=
          ⟨blockNumber, blockData.cycles.foldl (· + ·) 0, blockData.txCount⟩
        Except.ok
          { currentData with
            block := blockNumber
            epoch := epochNumber
            epochIndex := epochIndex
            epochLength := epochLength
            chainType := chainTypeString
            connections := connectionsNumber
            nodeVersion := nodeVersion
            orphan := batch.txPool.orphan
            pending := batch.txPool.pending
            proposed := batch.txPool.proposed
            totalTxCycles := batch.txPool.total_tx_cycles
            txSize := batch.txPool.total_tx_size
            minFeeRate := batch.txPool.tx_size_limit
            historyState := historyState
            targetEpoch := if options.updateTargets then targetEpoch else currentData.targetEpoch
            targetTime := if options.updateTargets then targetTime else currentData.targetTime }

/-- `updateData`: skips entirely when no RPC URL is configured; on a
caught error the state setter is never called, so the prior
`CurrentData` remains; on success the wholly assembled record is
published. -/
def updateData (settings : SettingsObject) (currentData : CurrentData) (env : RpcEnv)
    (options : UpdateOptions) : CurrentData :=
  if settings.ckbRpcUrl = "" then currentData
  else
    match runPoll settings currentData env options with
    | Except.ok newData => newData
    | Except.error _ => currentData

/-- The shared application state the loops read and write: the current
snapshot (including the halving target fields) and the tx history. -/
structure AppState where
  currentData : CurrentData
  txHistory : List HistoryState
deriving Repr, DecidableEq

/-- One poll trigger acting on the shared application state: only the
`currentData` cell can be written by `updateData`; the history is
untouched by a poll. -/
def pollStep (settings : SettingsObject) (env : RpcEnv) (options : UpdateOptions)
    (st : AppState) : AppState :=
  { st with currentData := updateData settings st.currentData env options }

/-! ## History buffer (`updateTxHistoryData`) -/

/-- Update the tx history with the current history state provided, if it
contains new data (`updateTxHistoryData`).  `maxCount` is the
`MAX_TX_HISTORY_COUNT` configuration constant; `shift()` removes the
element at index 0 and `push` appends at the end. -/
def updateTxHistoryData (maxCount : ℕ) (currentHistoryState : Option HistoryState)
    (txHistory : List HistoryState) : List HistoryState :=
  match currentHistoryState with
  | none => txHistory
  | some h =>
    if h.blockNumber ≠ 0 ∧ h.blockNumber ∉ txHistory.map (fun x => x.blockNumber) then
      let pruned := if txHistory.length = maxCount then txHistory.tail else txHistory
      pruned ++ [h]
    else
      txHistory

/-- The initial tx history of the App:
`Array(50).fill({blockNumber: 0, cyclesConsumed: 0, txCount: 0})`. -/
def initialTxHistory : List HistoryState :=
  List.replicate 50 ⟨0, 0, 0⟩

/-- A sequence of history updates applied in order to a buffer, each one
with the App's `MAX_TX_HISTORY_COUNT` capacity. -/
def applyHistory (ops : List (Option HistoryState)) (txHistory : List HistoryState) :
    List HistoryState :=
  ops.foldl (fun tx op => updateTxHistoryData MAX_TX_HISTORY_COUNT op tx) txHistory

/-! ## Helper lemmas -/

/-- A mask of `k` low bits shifted up by `s`, ANDed and shifted back,
extracts the bit field `x / 2 ^ s % 2 ^ k`. -/
theorem and_mask_shiftRight (x k s : ℕ) :
    (x &&& (2 ^ k - 1) <<< s) >>> s = x / 2 ^ s % 2 ^ k := by
  apply Nat.eq_of_testBit_eq
  intro j
  simp [Nat.testBit_shiftRight, Nat.testBit_and, Nat.testBit_shiftLeft,
    Nat.testBit_mod_two_pow, ← Nat.shiftRight_eq_div_pow, Nat.le_add_right,
    Nat.add_sub_cancel_left]
  cases h : Nat.testBit x (s + j) <;> simp [Bool.and_comm]

/-- In public mode the node fields are the sentinels, whatever the
batched response carried for `local_node_info`. -/
theorem nodeFieldsOf_public (settings : SettingsObject) (ni : Option NodeInfo)
    (hpub : settings.ckbRpcPublic = true) :
    nodeFieldsOf settings ni = Except.ok (-1, "n/a") := by
  rw [nodeFieldsOf.eq_def, hpub]
  rfl

/-- The invariant maintained by `updateTxHistoryData` from the App's
initial history: bounded length, and no duplicates among the nonzero
block numbers. -/
def historyInv (tx : List HistoryState) : Prop :=
  tx.length ≤ MAX_TX_HISTORY_COUNT ∧
  ((tx.map (fun x => x.blockNumber)).filter (fun b => b != 0)).Nodup

/-- One history update preserves `historyInv`. -/
theorem historyInv_step (op : Option HistoryState) (tx : List HistoryState)
    (h : historyInv tx) : historyInv (updateTxHistoryData MAX_TX_HISTORY_COUNT op tx) := by
  obtain ⟨hlen, hnodup⟩ := h
  match op with
  | none => exact ⟨hlen, hnodup⟩
  | some s =>
    simp only [updateTxHistoryData]
    split
    case isTrue hc =>
      obtain ⟨hbn, hmem⟩ := hc
      show historyInv ((if tx.length = MAX_TX_HISTORY_COUNT then tx.tail else tx) ++ [s])
      have hsub : (if tx.length = MAX_TX_HISTORY_COUNT then tx.tail else tx).Sublist tx := by
        split
        · exact List.tail_sublist tx
        · exact List.Sublist.refl tx
      constructor
      · rw [List.length_append, List.length_singleton]
        split
        case isTrue heq =>
          rw [List.length_tail, MAX_TX_HISTORY_COUNT] at *
          omega
        case isFalse hne =>
          rw [MAX_TX_HISTORY_COUNT] at *
          omega
      · rw [List.map_append, List.filter_append]
        have hfsub : List.Sublist
            (((if tx.length = MAX_TX_HISTORY_COUNT then tx.tail else tx).map
              (fun x => x.blockNumber)).filter (fun b => b != 0))
            ((tx.map (fun x => x.blockNumber)).filter (fun b => b != 0)) :=
          List.Sublist.filter _ (List.Sublist.map _ hsub)
        have hA : (((if tx.length = MAX_TX_HISTORY_COUNT then tx.tail else tx).map
            (fun x => x.blockNumber)).filter (fun b => b != 0)).Nodup :=
          List.Nodup.sublist hfsub hnodup
        have hnotmem : s.blockNumber ∉
            ((if tx.length = MAX_TX_HISTORY_COUNT then tx.tail else tx).map
              (fun x => x.blockNumber)).filter (fun b => b != 0) := by
          intro hin
          exact hmem (List.Sublist.subset (List.Sublist.map _ hsub)
            (List.mem_of_mem_filter hin))
        have hfs : ([s].map (fun x => x.blockNumber)).filter (fun b => b != 0)
            = [s.blockNumber] := by
          simp [hbn]
        rw [hfs]
        simp [List.nodup_append, hA, hnotmem]
    case isFalse => exact ⟨hlen, hnodup⟩

/-! ## Concrete poll environments used by closed theorems -/

/-- Settings with a configured endpoint and public mode enabled. -/
def publicSettings : SettingsObject := ⟨"http://127.0.0.1:8114", true⟩

/-- Settings with a configured endpoint and public mode disabled. -/
def localSettings : SettingsObject := ⟨"http://127.0.0.1:8114", false⟩

/-- A packed epoch value for epochNumber 5, epochIndex 100,
epochLength 1800: `5 + 100 * 2 ^ 24 + 1800 * 2 ^ 40`. -/
def samplePackedEpoch : ℕ := 1979122607718405

/-- A batched response carrying no usable `local_node_info` result
(as a restricted public node answers). -/
def publicBatch : BatchResult :=
  ⟨⟨samplePackedEpoch, 7⟩, ⟨"ckb"⟩, ⟨1, 2, 3, 4, 5, 6⟩, none⟩

/-- A fully populated batched response from a local node. -/
def localBatch : BatchResult :=
  ⟨⟨samplePackedEpoch, 42⟩, ⟨"ckb"⟩, ⟨1, 2, 3, 4, 5, 6⟩, some ⟨8, "0.111.0 (rc1)"⟩⟩

/-- A block fetch answering every block number with a three-transaction
block whose cycle values sum to 30. -/
def sampleBlockFetch : ℕ → Except PollError BlockData := fun _ => Except.ok ⟨3, [10, 20]⟩

/-- The environment of a successful public-mode poll. -/
def publicEnv : RpcEnv := ⟨Except.ok publicBatch, sampleBlockFetch, 0⟩

/-- The environment of a successful local-mode poll. -/
def localEnv : RpcEnv := ⟨Except.ok localBatch, sampleBlockFetch, 0⟩

/-- The environment of a poll whose tip header reports the all-zero
packed epoch, so the decoded epochLength is 0. -/
def zeroEpochEnv : RpcEnv :=
  ⟨Except.ok ⟨⟨0, 7⟩, ⟨"ckb"⟩, ⟨1, 2, 3, 4, 5, 6⟩, some ⟨8, "0.111.0"⟩⟩, sampleBlockFetch, 1000⟩

/-- The environment of a poll whose batched fetch fails on the network. -/
def failingEnv : RpcEnv := ⟨Except.error PollError.network, sampleBlockFetch, 0⟩

/-- The snapshot produced by the successful public-mode poll. -/
def publicPollResult : CurrentData :=
  (runPoll publicSettings currentDataDefault publicEnv ⟨false⟩).toOption.getD currentDataDefault

/-- The snapshot produced by the successful local-mode poll with target
recomputation disabled. -/
def localPollResult : CurrentData :=
  (runPoll localSettings currentDataDefault localEnv ⟨false⟩).toOption.getD currentDataDefault

/-! ## Claims -/

/-- C1 (counterexample): with public mode enabled, the batched request
array the poll sends still contains a request with method
`local_node_info` (the array is a settings-independent literal), so the
claim that no such request is issued in public mode is false. -/
theorem localNodeInfo_sent_in_public_mode :
    publicSettings.ckbRpcPublic = true ∧
    "local_node_info" ∈ (batchRequestOf publicSettings).map RpcRequest.method := by
  refine ⟨rfl, ?_⟩
  simp [batchRequestOf, jsonRpcRequest1]

/-- C1 (amended): the batched request array always contains a
`local_node_info` request, public mode or not; but in public mode its
result is never read, and every snapshot a public-mode poll assembles
has the "unavailable" sentinels `-1` and `"n/a"` as its connections and
node-version fields. -/
theorem public_mode_sentinels (settings : SettingsObject) (cd : CurrentData) (env : RpcEnv)
    (options : UpdateOptions) (d : CurrentData)
    (hpub : settings.ckbRpcPublic = true)
    (hok : runPoll settings cd env options = Except.ok d) :
    "local_node_info" ∈ (batchRequestOf settings).map RpcRequest.method ∧
    d.connections = -1 ∧ d.nodeVersion = "n/a" := by
  refine ⟨by simp [batchRequestOf, jsonRpcRequest1], ?_⟩
  unfold runPoll at hok
  split at hok
  next e heq => exact absurd hok (by simp)
  next batch heq =>
    rw [nodeFieldsOf_public settings _ hpub] at hok
    split at hok
    next e heq2 => exact absurd heq2 (by simp)
    next cn nv heq2 =>
      have hcn : cn = -1 ∧ nv = "n/a" := by
        have h := heq2.symm
        simp only [Except.ok.injEq, Prod.mk.injEq] at h
        exact h
      simp only [] at hok
      cases hbd : env.blockByNumber batch.tipHeader.number with
      | error e =>
        rw [hbd] at hok
        exact absurd hok (by simp)
      | ok bd =>
        rw [hbd] at hok
        injection hok with hd
        subst hd
        exact ⟨hcn.1, hcn.2⟩

/-- C1 (witness): a concrete successful public-mode poll. -/
theorem public_mode_sentinels_witness :
    publicSettings.ckbRpcPublic = true ∧
    runPoll publicSettings currentDataDefault publicEnv ⟨false⟩ = Except.ok publicPollResult ∧
    ("local_node_info" ∈ (batchRequestOf publicSettings).map RpcRequest.method ∧
      publicPollResult.connections = -1 ∧ publicPollResult.nodeVersion = "n/a") :=
  ⟨rfl, rfl,
    public_mode_sentinels publicSettings currentDataDefault publicEnv ⟨false⟩
      publicPollResult rfl rfl⟩

/-- C2: a poll whose tip header decodes to `epochLength = 0` does not
fail at all: it runs to completion and publishes a snapshot, with the
halving duration (and hence `targetTime`) the non-finite value the JS
float division produces (modelled as `none`).  The claim that such an
input signals an error is contradicted by the code. -/
theorem zero_epochLength_poll_publishes_nonfinite_target :
    epochLengthOf 0 = 0 ∧
    targetDurationOf 0 0 0 = none ∧
    Except.map (fun d => d.targetTime)
      (runPoll localSettings currentDataDefault zeroEpochEnv ⟨true⟩) = Except.ok none :=
  ⟨rfl, rfl, rfl⟩

/-- C3: decoding the packed 64-bit value
`epochNumber ||| (epochIndex <<< 24) ||| (epochLength <<< 40)` with the
three mask-and-shift decoders recovers the encoded triple whenever
`epochNumber < 2^24` and `epochIndex < epochLength < 2^16`. -/
theorem epoch_decode_roundtrip (n i l : ℕ) (hn : n < 2 ^ 24) (hi : i < l) (hl : l < 2 ^ 16) :
    epochNumberOf (n ||| i <<< 24 ||| l <<< 40) = n ∧
    epochIndexOf (n ||| i <<< 24 ||| l <<< 40) = i ∧
    epochLengthOf (n ||| i <<< 24 ||| l <<< 40) = l := by
  have p24 : (2 : ℕ) ^ 24 = 16777216 := by norm_num
  have p16 : (2 : ℕ) ^ 16 = 65536 := by norm_num
  have p40 : (2 : ℕ) ^ 40 = 1099511627776 := by norm_num
  have hi16 : i < 2 ^ 16 := lt_trans hi hl
  have h1 : n ||| i <<< 24 = 2 ^ 24 * i + n := by
    rw [Nat.shiftLeft_eq, Nat.mul_comm, Nat.lor_comm, ← Nat.mul_add_lt_is_or hn]
  have hbound : 2 ^ 24 * i + n < 2 ^ 40 := by omega
  have h2 : (2 ^ 24 * i + n) ||| l <<< 40 = 2 ^ 40 * l + (2 ^ 24 * i + n) := by
    rw [Nat.shiftLeft_eq, Nat.mul_comm l, Nat.lor_comm, ← Nat.mul_add_lt_is_or hbound]
  have hadd : n ||| i <<< 24 ||| l <<< 40 = n + 2 ^ 24 * i + 2 ^ 40 * l := by
    rw [h1, h2]
    ring
  refine ⟨?_, ?_, ?_⟩
  · rw [epochNumberOf, hadd, show (16777215 : ℕ) = 2 ^ 24 - 1 by norm_num,
      Nat.and_pow_two_sub_one_eq_mod]
    omega
  · rw [epochIndexOf, hadd,
      show (1099494850560 : ℕ) = (2 ^ 16 - 1) <<< 24 by norm_num [Nat.shiftLeft_eq],
      and_mask_shiftRight]
    omega
  · rw [epochLengthOf, hadd,
      show (72056494526300160 : ℕ) = (2 ^ 16 - 1) <<< 40 by norm_num [Nat.shiftLeft_eq],
      and_mask_shiftRight]
    omega

/-- C3 (witness): the roundtrip at epochNumber 5, epochIndex 100,
epochLength 1800. -/
theorem epoch_decode_roundtrip_witness :
    (5 : ℕ) < 2 ^ 24 ∧ (100 : ℕ) < 1800 ∧ (1800 : ℕ) < 2 ^ 16 ∧
    (epochNumberOf (5 ||| 100 <<< 24 ||| 1800 <<< 40) = 5 ∧
      epochIndexOf (5 ||| 100 <<< 24 ||| 1800 <<< 40) = 100 ∧
      epochLengthOf (5 ||| 100 <<< 24 ||| 1800 <<< 40) = 1800) :=
  ⟨by norm_num, by norm_num, by norm_num,
    epoch_decode_roundtrip 5 100 1800 (by norm_num) (by norm_num) (by norm_num)⟩

/-- C4: a poll that fails at any step leaves the shared application
state — snapshot, target fields and history — entirely unchanged: no
partial snapshot is published. -/
theorem failed_poll_leaves_state_unchanged (settings : SettingsObject) (env : RpcEnv)
    (options : UpdateOptions) (st : AppState) (e : PollError)
    (h : runPoll settings st.currentData env options = Except.error e) :
    pollStep settings env options st = st := by
  unfold pollStep updateData
  split
  · rfl
  · rw [h]

/-- C4 (witness): a poll whose batched fetch fails on the network. -/
theorem failed_poll_leaves_state_unchanged_witness :
    runPoll localSettings (AppState.mk currentDataDefault initialTxHistory).currentData
        failingEnv ⟨true⟩ = Except.error PollError.network ∧
    pollStep localSettings failingEnv ⟨true⟩ (AppState.mk currentDataDefault initialTxHistory)
      = AppState.mk currentDataDefault initialTxHistory :=
  ⟨rfl,
    failed_poll_leaves_state_unchanged localSettings failingEnv ⟨true⟩
      (AppState.mk currentDataDefault initialTxHistory) PollError.network rfl⟩

/-- C5 (counterexample): the App's initial history — a reachable buffer
state, obtained by applying the empty sequence of appends — holds 50
placeholder entries all sharing blockNumber 0, so the claimed invariant
that no two elements share a blockNumber is false. -/
theorem initial_history_has_duplicate_blockNumbers :
    ¬ ((applyHistory [] initialTxHistory).map (fun x => x.blockNumber)).Nodup := by
  decide

/-- C5 (amended): in every buffer state reachable from the App's initial
history by appends, the length never exceeds the capacity
`MAX_TX_HISTORY_COUNT`, and no two elements share a nonzero
blockNumber (the 50 zero-numbered placeholders of the initial fill are
duplicated until evicted, and appends never add a zero blockNumber). -/
theorem history_reachable_invariants (ops : List (Option HistoryState)) :
    (applyHistory ops initialTxHistory).length ≤ MAX_TX_HISTORY_COUNT ∧
    (((applyHistory ops initialTxHistory).map (fun x => x.blockNumber)).filter
      (fun b => b != 0)).Nodup := by
  have hinit : historyInv initialTxHistory := by
    constructor <;> decide
  have hgen : ∀ tx, historyInv tx →
      historyInv (ops.foldl (fun t op => updateTxHistoryData MAX_TX_HISTORY_COUNT op t) tx) := by
    induction ops with
    | nil =>
      intro tx h
      exact h
    | cons op rest ih =>
      intro tx h
      exact ih _ (historyInv_step op tx h)
  exact hgen initialTxHistory hinit

/-- C6: the projected target epoch is the smallest multiple of
`EPOCHS_PER_HALVING` strictly greater than the current epoch number; at
epochNumber 8759, epochIndex 0, epochLength 1800 it is 8760, the
duration is exactly 14,400,000 ms and the target time is `now`
plus that duration. -/
theorem halving_projection_correct (en ei el : ℕ) (hl : 0 < el) :
    (EPOCHS_PER_HALVING ∣ targetEpochOf en ∧ en < targetEpochOf en ∧
      ∀ m, EPOCHS_PER_HALVING ∣ m → en < m → targetEpochOf en ≤ m) ∧
    targetEpochOf 8759 = 8760 ∧
    targetDurationOf 8759 0 1800 = some 14400000 ∧
    ∀ T : ℤ, targetTimeOf 8759 0 1800 T = some (T + 14400000) := by
  have hdur : targetDurationOf 8759 0 1800 = some 14400000 := by
    rw [targetDurationOf]
    norm_num
    rw [show (↑(targetEpochOf 8759) - (8759 : ℚ)) * (HOURS_PER_EPOCH : ℚ) * 3600000
          = ((14400000 : ℤ) : ℚ) by
        norm_num [targetEpochOf, EPOCHS_PER_HALVING, HOURS_PER_EPOCH]]
    rw [Int.floor_intCast]
  refine ⟨⟨⟨en / EPOCHS_PER_HALVING + 1, by rw [targetEpochOf]; ring⟩, ?_, ?_⟩, ?_, hdur, ?_⟩
  · rw [targetEpochOf, EPOCHS_PER_HALVING]
    omega
  · rintro m ⟨k, hk⟩ hlt
    subst hk
    rw [targetEpochOf, EPOCHS_PER_HALVING] at *
    omega
  · decide
  · intro T
    rw [targetTimeOf, hdur]
    rfl

/-- C6 (witness): the projection at the concrete position of the claim. -/
theorem halving_projection_correct_witness :
    (0 : ℕ) < 1800 ∧
    targetEpochOf 8759 = 8760 ∧
    targetDurationOf 8759 0 1800 = some 14400000 ∧
    targetTimeOf 8759 0 1800 1700000000000 = some 1700014400000 :=
  ⟨by decide, (halving_projection_correct 8759 0 1800 (by decide)).2.1,
    (halving_projection_correct 8759 0 1800 (by decide)).2.2.1,
    ((halving_projection_correct 8759 0 1800 (by decide)).2.2.2 1700000000000).trans
      (by norm_num)⟩

/-- C7: the countdown formatter is a three-state function of the
remaining time: empty string when `targetTime` is 0/unset; the fixed
celebration string when the remaining time is ≤ 0 or at least the
near-full-cycle threshold; otherwise the successive-integer-division
breakdown with 30-day months, which at 90,061,000 ms remaining is
0 months, 1 day, 1 hour, 1 minute, 1 second. -/
theorem countdown_three_states :
    (∀ now : ℤ, generateCountdown 0 now = "") ∧
    (∀ targetTime now : ℤ, targetTime ≠ 0 →
      targetTime - now ≤ 0 ∨ halvingMessageWindow ≤ targetTime - now →
      generateCountdown targetTime now = halvingMessage) ∧
    (∀ targetTime now : ℤ, targetTime ≠ 0 →
      0 < targetTime - now → targetTime - now < halvingMessageWindow →
      generateCountdown targetTime now
        = countdownText (calculateTimeValue (targetTime - now))) ∧
    calculateTimeValue 90061000 = ⟨0, 1, 1, 1, 1⟩ := by
  refine ⟨?_, ?_, ?_, by decide⟩
  · intro now
    rw [generateCountdown]
    simp
  · intro tt now h1 h2
    rw [generateCountdown, if_pos h1]
    show (if tt - now > 0 ∧ tt - now < halvingMessageWindow then _ else _) = _
    rw [if_neg]
    rintro ⟨hg, hlt⟩
    rcases h2 with h | h
    · omega
    · omega
  · intro tt now h1 h2 h3
    rw [generateCountdown, if_pos h1]
    show (if tt - now > 0 ∧ tt - now < halvingMessageWindow then _ else _) = _
    rw [if_pos ⟨h2, h3⟩]

/-- C7 (witness): the celebration state just past the target and the
counting state at 90,061,000 ms remaining. -/
theorem countdown_three_states_witness :
    ((2 : ℤ) ≠ 0 ∧ (2 : ℤ) - 5 ≤ 0 ∧ generateCountdown 2 5 = halvingMessage) ∧
    ((90061001 : ℤ) ≠ 0 ∧ (0 : ℤ) < 90061001 - 1 ∧
      (90061001 : ℤ) - 1 < halvingMessageWindow ∧
      generateCountdown 90061001 1 = countdownText (calculateTimeValue (90061001 - 1))) :=
  ⟨⟨by decide, by decide, countdown_three_states.2.1 2 5 (by decide) (Or.inl (by decide))⟩,
    ⟨by decide, by decide, by decide,
      countdown_three_states.2.2.1 90061001 1 (by decide) (by decide) (by decide)⟩⟩

/-- C8: a capacity-3 buffer, starting empty, after appending block
numbers 1, 2, 3, 4 in order holds exactly blocks 2, 3, 4 in order
(block 1 evicted as the oldest), and re-appending block 3 changes
nothing. -/
theorem history_capacity_three_fifo :
    updateTxHistoryData 3 (some ⟨4, 40, 4⟩)
      (updateTxHistoryData 3 (some ⟨3, 30, 3⟩)
        (updateTxHistoryData 3 (some ⟨2, 20, 2⟩)
          (updateTxHistoryData 3 (some ⟨1, 10, 1⟩) [])))
      = [⟨2, 20, 2⟩, ⟨3, 30, 3⟩, ⟨4, 40, 4⟩] ∧
    updateTxHistoryData 3 (some ⟨3, 30, 3⟩) [⟨2, 20, 2⟩, ⟨3, 30, 3⟩, ⟨4, 40, 4⟩]
      = [⟨2, 20, 2⟩, ⟨3, 30, 3⟩, ⟨4, 40, 4⟩] := by
  decide

/-- C9: appending the same sample twice produces the same buffer as
appending it once, for every capacity, sample and buffer state; and a
sample whose blockNumber is zero or already present is a no-op. -/
theorem history_append_idempotent :
    (∀ (maxCount : ℕ) (s : Option HistoryState) (tx : List HistoryState),
      updateTxHistoryData maxCount s (updateTxHistoryData maxCount s tx)
        = updateTxHistoryData maxCount s tx) ∧
    (∀ (maxCount : ℕ) (h : HistoryState) (tx : List HistoryState),
      h.blockNumber = 0 ∨ h.blockNumber ∈ tx.map (fun x => x.blockNumber) →
      updateTxHistoryData maxCount (some h) tx = tx) := by
  have hnoop : ∀ (maxCount : ℕ) (h : HistoryState) (tx : List HistoryState),
      h.blockNumber = 0 ∨ h.blockNumber ∈ tx.map (fun x => x.blockNumber) →
      updateTxHistoryData maxCount (some h) tx = tx := by
    intro maxCount h tx hcase
    simp only [updateTxHistoryData]
    rw [if_neg]
    rintro ⟨hne, hnotmem⟩
    rcases hcase with h0 | hm
    · exact hne h0
    · exact hnotmem hm
  refine ⟨?_, hnoop⟩
  intro maxCount s tx
  match s with
  | none => rfl
  | some h =>
    by_cases hc : h.blockNumber ≠ 0 ∧ h.blockNumber ∉ tx.map (fun x => x.blockNumber)
    · have h1 : updateTxHistoryData maxCount (some h) tx
          = (if tx.length = maxCount then tx.tail else tx) ++ [h] := by
        simp only [updateTxHistoryData]
        rw [if_pos hc]
      rw [h1]
      apply hnoop
      right
      simp
    · have h1 : updateTxHistoryData maxCount (some h) tx = tx := by
        simp only [updateTxHistoryData]
        rw [if_neg hc]
      rw [h1, h1]

/-- C9 (witness): a zero-blockNumber sample is a no-op on the empty
buffer. -/
theorem history_append_idempotent_witness :
    ((⟨0, 0, 0⟩ : HistoryState).blockNumber = 0 ∨
      (⟨0, 0, 0⟩ : HistoryState).blockNumber ∈ ([] : List HistoryState).map
        (fun x => x.blockNumber)) ∧
    updateTxHistoryData 5 (some ⟨0, 0, 0⟩) [] = [] :=
  ⟨Or.inl rfl, history_append_idempotent.2 5 ⟨0, 0, 0⟩ [] (Or.inl rfl)⟩

/-- C10: a successful poll with target recomputation disabled keeps
the caller's `targetEpoch` and `targetTime` unchanged while updating
every other snapshot field from the fresh RPC data. -/
theorem disabled_targets_frame (settings : SettingsObject) (cd : CurrentData)
    (b : BatchResult) (f : ℕ → Except PollError BlockData) (now : ℤ) (bd : BlockData)
    (d : CurrentData)
    (hf : f b.tipHeader.number = Except.ok bd)
    (hok : runPoll settings cd ⟨Except.ok b, f, now⟩ ⟨false⟩ = Except.ok d) :
    d.targetEpoch = cd.targetEpoch ∧ d.targetTime = cd.targetTime ∧
    d.block = b.tipHeader.number ∧
    d.epoch = epochNumberOf b.tipHeader.epoch ∧
    d.epochIndex = epochIndexOf b.tipHeader.epoch ∧
    d.epochLength = epochLengthOf b.tipHeader.epoch ∧
    d.chainType = decodeChainType b.chainInfo.chain ∧
    d.orphan = b.txPool.orphan ∧ d.pending = b.txPool.pending ∧
    d.proposed = b.txPool.proposed ∧
    d.totalTxCycles = b.txPool.total_tx_cycles ∧ d.txSize = b.txPool.total_tx_size ∧
    d.minFeeRate = b.txPool.tx_size_limit ∧
    d.historyState = ⟨b.tipHeader.number, bd.cycles.foldl (· + ·) 0, bd.txCount⟩ := by
  unfold runPoll at hok
  simp only [] at hok
  split at hok
  · exact absurd hok (by simp)
  · rw [hf] at hok
    simp only [] at hok
    injection hok with hd
    subst hd
    exact ⟨rfl, rfl, rfl, rfl, rfl, rfl, rfl, rfl, rfl, rfl, rfl, rfl, rfl, rfl⟩

/-- C10 (witness): the concrete local-mode poll with targets disabled. -/
theorem disabled_targets_frame_witness :
    sampleBlockFetch localBatch.tipHeader.number = Except.ok ⟨3, [10, 20]⟩ ∧
    runPoll localSettings currentDataDefault ⟨Except.ok localBatch, sampleBlockFetch, 0⟩
        ⟨false⟩ = Except.ok localPollResult ∧
    (localPollResult.targetEpoch = currentDataDefault.targetEpoch ∧
      localPollResult.targetTime = currentDataDefault.targetTime ∧
      localPollResult.block = localBatch.tipHeader.number ∧
      localPollResult.epoch = epochNumberOf localBatch.tipHeader.epoch ∧
      localPollResult.epochIndex = epochIndexOf localBatch.tipHeader.epoch ∧
      localPollResult.epochLength = epochLengthOf localBatch.tipHeader.epoch ∧
      localPollResult.chainType = decodeChainType localBatch.chainInfo.chain ∧
      localPollResult.orphan = localBatch.txPool.orphan ∧
      localPollResult.pending = localBatch.txPool.pending ∧
      localPollResult.proposed = localBatch.txPool.proposed ∧
      localPollResult.totalTxCycles = localBatch.txPool.total_tx_cycles ∧
      localPollResult.txSize = localBatch.txPool.total_tx_size ∧
      localPollResult.minFeeRate = localBatch.txPool.tx_size_limit ∧
      localPollResult.historyState
        = ⟨localBatch.tipHeader.number, BlockData.cycles ⟨3, [10, 20]⟩ |>.foldl (· + ·) 0,
            BlockData.txCount ⟨3, [10, 20]⟩⟩) :=
  ⟨rfl, rfl,
    disabled_targets_frame localSettings currentDataDefault localBatch sampleBlockFetch 0
      ⟨3, [10, 20]⟩ localPollResult rfl rfl⟩

end Dashboard
